import Mathlib

/-!
Verification of the ResQ-AI agentic dispatcher core against its design
specification.  The Python sources are shallowly embedded as Lean
definitions: `relief_tools.py` (deterministic fallback planner and unit
registry helpers) and `agents.py` (resilient Gemini invoker, message
envelope, the Dispatch / Resource / Summary / Decision agents and the
A2A orchestrator).  External effects are made explicit: randomness is a
jitter assignment parameter, wall-clock time is a `now : Nat` field,
mutable module state (backoff timestamp, decision history, unit status)
is threaded as values, and the network backend is a function parameter.
-/

/-! ## Python string primitives

Python string operations used by the sources, modelled over `String`
(`String.data` is the list of characters, matching Python code-point
sequences).
-/

/-- Python `sub in s` substring containment, on character lists. -/
def listContains (hay needle : List Char) : Bool :=
  needle.isPrefixOf hay ||
    match hay with
    | [] => false
    | _ :: t => listContains t needle

/-- Python `sub in s` on strings. -/
def strContains (s sub : String) : Bool :=
  listContains s.data sub.data

/-- Python `s.startswith(p)`. -/
def strStarts (s p : String) : Bool :=
  p.data.isPrefixOf s.data

/-- Python slicing `s[:n]`. -/
def strTake (s : String) (n : Nat) : String :=
  String.mk (s.data.take n)

/-- Strip leading and trailing whitespace from a character list. -/
def stripChars (l : List Char) : List Char :=
  ((l.dropWhile Char.isWhitespace).reverse.dropWhile Char.isWhitespace).reverse

/-- Python `s.strip()`. -/
def pyStrip (s : String) : String :=
  String.mk (stripChars s.data)

/-- Python `value or default` for an optional string: `None` and `""` are
falsy and give the default. -/
def pyOr (v : Option String) (d : String) : String :=
  match v with
  | none => d
  | some s => if s = "" then d else s

/-- Python `d.get(key, default)`: the default is used only when the key is
absent; a present empty string is kept. -/
def optGetD (v : Option String) (d : String) : String :=
  v.getD d

/-- Python f-string rendering of an optional value (`None` prints as
`"None"`). -/
def pyShowOpt (v : Option String) : String :=
  match v with
  | none => "None"
  | some s => s

/-- Python `s.lower()`, character by character. -/
def pyToLower (s : String) : String :=
  String.mk (s.data.map Char.toLower)

/-! ## relief_tools.py : data model -/

/-- A responder unit of the mocked inventory (`_UNIT_REGISTRY` entries). -/
structure RUnit where
  id : String
  utype : String
  location : String
  capabilities : List String
  base_eta : Nat
  deriving DecidableEq, Repr

/-- `_UNIT_REGISTRY` from `relief_tools.py`. -/
def UNIT_REGISTRY : List RUnit :=
  [ { id := "Fire-1", utype := "fire", location := "Station Alpha",
      capabilities := ["structure", "industrial"], base_eta := 5 },
    { id := "Fire-2", utype := "fire", location := "Station Bravo",
      capabilities := ["wildfire", "structure"], base_eta := 7 },
    { id := "Ambulance-2", utype := "ems", location := "Medic Hub",
      capabilities := ["medical", "triage"], base_eta := 6 },
    { id := "Rescue-3", utype := "rescue", location := "Urban SAR",
      capabilities := ["collapse", "water"], base_eta := 8 } ]

/-- Mutable per-unit status record of `_UNIT_STATUS`. -/
structure UStatus where
  status : String
  incident_id : Option String
  last_updated : String
  deriving DecidableEq, Repr

/-- The initial `_UNIT_STATUS` map (timestamps abstracted by `ts`). -/
def initial_unit_status (ts : String) : List (String × UStatus) :=
  UNIT_REGISTRY.map (fun u => (u.id, { status := "available", incident_id := none, last_updated := ts }))

/-- `_SECTOR_MODIFIERS` from `relief_tools.py`. -/
def SECTOR_MODIFIERS : List (String × Nat) :=
  [("sector 1", 3), ("sector 2", 4), ("sector 3", 5), ("sector 4", 6),
   ("sector 5", 7), ("sector 6", 8), ("sector 7", 4), ("sector 8", 5)]

/-- An incident payload: the dictionary keys read anywhere in the sources,
each possibly absent. -/
structure Incident where
  id : Option String := none
  itype : Option String := none
  location : Option String := none
  urgency : Option String := none
  details : Option String := none
  description : Option String := none
  deriving DecidableEq, Repr

/-- The empty incident dictionary. -/
def emptyIncident : Incident := {}

/-- `_normalize` from `relief_tools.py`: `(value or "unknown").strip().lower()`. -/
def pynormalize (v : Option String) : String :=
  pyToLower (pyStrip (pyOr v "unknown"))

/-- `_estimate_arrival_minutes`: `max(3, base_eta + modifier // 2 + jitter)`,
with the random `jitter` made an explicit argument. -/
def estimate_arrival_minutes (u : RUnit) (location : Option String) (jitter : Int) : Int :=
  let sector := pynormalize location
  let modifier := (SECTOR_MODIFIERS.lookup sector).getD 6
  max 3 ((u.base_eta : Int) + ((modifier / 2 : Nat) : Int) + jitter)

/-- `_score_unit` from `relief_tools.py`. -/
def score_unit (u : RUnit) (incident : Incident) : Nat :=
  let incident_type := pynormalize incident.itype
  let urgency := pynormalize incident.urgency
  (if incident_type ≠ "" ∧ u.capabilities.contains incident_type then 4 else 0) +
  (if strContains u.utype incident_type then 3 else 0) +
  (if urgency = "critical" ∨ urgency = "high" then 2 else 0)

/-- A registry unit enriched with its `eta_minutes` estimate. -/
structure EUnit where
  unit : RUnit
  eta_minutes : Int
  deriving DecidableEq, Repr

/-- Ascending comparison on estimated arrival, the key of the
`candidates.sort` call in `get_available_units`. -/
def etaLE (a b : EUnit) : Prop := a.eta_minutes ≤ b.eta_minutes

instance : DecidableRel etaLE := fun _ _ => Int.decLe _ _

instance : IsTotal EUnit etaLE := ⟨fun _ _ => Int.le_total _ _⟩

instance : IsTrans EUnit etaLE := ⟨fun _ _ _ h h2 => Int.le_trans h h2⟩

/-- The candidate loop of `get_available_units`: registry units that are
`available` and pass the optional type filter, enriched with their ETA
estimate, in registry order. -/
def available_candidates (jit : String → Int) (statusOf : String → String)
    (unit_type : Option String) : List EUnit :=
  UNIT_REGISTRY.filterMap (fun u =>
    if statusOf u.id ≠ "available" then none
    else if (match unit_type with
             | none => false
             | some t => t ≠ "" ∧ ¬ (strContains u.utype (pynormalize (some t)) = true)) then none
    else some { unit := u, eta_minutes := estimate_arrival_minutes u (some u.location) (jit u.id) })

/-- `get_available_units` from `relief_tools.py`.  The unit-status map and
the per-unit random jitter are explicit parameters; Python `list.sort` is
stable, hence modelled by insertion sort.  The trailing `if limit:` guard
only truncates for a truthy (non-zero) limit. -/
def get_available_units (jit : String → Int) (statusOf : String → String)
    (unit_type : Option String) (limit : Option Nat) : List EUnit :=
  let sorted := List.insertionSort etaLE (available_candidates jit statusOf unit_type)
  match limit with
  | some n => if n ≠ 0 then sorted.take n else sorted
  | none => sorted

/-- Descending comparison on the score component, the key of the
`ranked.sort(..., reverse=True)` call in `recommend_units_for_incident`. -/
def scoreGE (a b : Nat × EUnit) : Prop := b.1 ≤ a.1

instance : DecidableRel scoreGE := fun _ _ => Nat.decLe _ _

instance : IsTotal (Nat × EUnit) scoreGE := ⟨fun a b => Nat.le_total b.1 a.1⟩

instance : IsTrans (Nat × EUnit) scoreGE := ⟨fun _ _ _ h h2 => Nat.le_trans h2 h⟩

/-- The scored positive candidates built by the loop of
`recommend_units_for_incident` (entries with score ≤ 0 skipped). -/
def ranked_pairs (jit : String → Int) (statusOf : String → String) (incident : Incident) :
    List (Nat × EUnit) :=
  ((get_available_units jit statusOf none none).map
    (fun e => (score_unit e.unit incident, e))).filter (fun p => decide (0 < p.1))

/-- `recommend_units_for_incident` from `relief_tools.py`. -/
def recommend_units_for_incident (jit : String → Int) (statusOf : String → String)
    (incident : Incident) (limit : Nat := 2) : List EUnit :=
  ((List.insertionSort scoreGE (ranked_pairs jit statusOf incident)).take limit).map (·.2)

/-- `generate_incident_brief` from `relief_tools.py`. -/
def generate_incident_brief (incident : Incident) : String :=
  let incident_type := optGetD incident.itype "Incident"
  let location := optGetD incident.location "unknown area"
  let details := pyOr incident.details (pyOr incident.description "")
  let urgency := optGetD incident.urgency "CRITICAL"
  let extra := if details ≠ "" then " Details: " ++ details else ""
  pyStrip (incident_type ++ " at " ++ location ++ " - urgency " ++ urgency ++ "." ++ extra)

/-- The four-field result of the deterministic fallback planner. -/
structure ReliefPlan where
  summary : String
  recommendation : String
  resources : List String
  resource_summary : String
  deriving DecidableEq, Repr

/-- `plan_relief_response` from `relief_tools.py`. -/
def plan_relief_response (jit : String → Int) (statusOf : String → String)
    (incident : Incident) (limit : Nat := 2) : ReliefPlan :=
  let summary := generate_incident_brief incident
  let ranked_units := recommend_units_for_incident jit statusOf incident limit
  let location := optGetD incident.location "the scene"
  match ranked_units with
  | [] =>
      { summary := summary,
        recommendation := "Hold and escalate to manual supervisor; no units free.",
        resources := [],
        resource_summary := "All units busy; advise manual review." }
  | top :: _ =>
      { summary := summary,
        recommendation := "Dispatch " ++ top.unit.id ++ " to " ++ location ++ ".",
        resources := ranked_units.map (fun e => e.unit.id),
        resource_summary := "Primary assignments: " ++
          String.intercalate ", " (ranked_units.map (fun e =>
            e.unit.id ++ " (" ++ e.unit.utype ++ ", ETA " ++ toString e.eta_minutes ++ "m)")) }

/-- `format_display_alert` from `relief_tools.py`. -/
def format_display_alert (summary recommendation : String)
    (incident : Option Incident) (urgency : Option String) : String :=
  let inc := incident.getD emptyIncident
  let urg := pyOr urgency (optGetD inc.urgency "CRITICAL")
  let location := optGetD inc.location ""
  let incident_type := optGetD inc.itype ""
  let base := pyStrip (urg ++ " " ++ incident_type ++ " " ++ location)
  let tail := if recommendation ≠ "" then recommendation else summary
  let message := pyStrip (base ++ ": " ++ tail)
  if message.length > 60 then strTake message 57 ++ "..." else message

/-- The record returned by `notify_dispatch`. -/
structure DispatchRecord where
  unit_id : String
  incident_id : Option String
  location : Option String
  timestamp : String
  status : String
  deriving DecidableEq, Repr

/-- The in-place mutation of `_UNIT_STATUS[unit_id]` performed by
`notify_dispatch` on a known unit. -/
def set_unit_assigned (uid : String) (iid : Option String) (ts : String)
    (m : List (String × UStatus)) : List (String × UStatus) :=
  m.map (fun p => if p.1 = uid then (p.1, { status := "assigned", incident_id := iid, last_updated := ts }) else p)

/-- `notify_dispatch` from `relief_tools.py` (the `utcnow` timestamp is the
explicit `ts` argument; the log print is dropped). -/
def notify_dispatch (uid : String) (incident : Incident) (ts : String)
    (m : List (String × UStatus)) : DispatchRecord × List (String × UStatus) :=
  let record : DispatchRecord :=
    { unit_id := uid, incident_id := incident.id, location := incident.location,
      timestamp := ts, status := "queued" }
  (record, if (m.lookup uid).isSome then set_unit_assigned uid incident.id ts m else m)

/-! ## agents.py : resilient Gemini invoker -/

/-- Default of `GEMINI_BACKOFF_SECONDS` (env var default `"45"`). -/
def GEMINI_BACKOFF_SECONDS_default : Nat := 45

/-- Default `DISPATCH_MODELS` chain. -/
def DISPATCH_MODEL_CHAIN : List String :=
  ["models/gemini-2.5-flash", "models/gemini-1.5-flash", "models/gemini-lite"]

/-- Default `RESOURCE_MODELS` chain. -/
def RESOURCE_MODEL_CHAIN : List String :=
  ["models/gemini-2.5-pro", "models/gemini-1.5-pro", "models/gemini-1.5-flash"]

/-- Default `SUMMARY_MODELS` chain. -/
def SUMMARY_MODEL_CHAIN : List String :=
  ["models/gemini-2.5-flash", "models/gemini-1.5-flash", "models/gemini-lite"]

/-- A backend response object: its optional `.text` attribute and the
`.candidates[i].content.parts` lists (a part without a `.text` attribute is
`none`). -/
structure GenResponse where
  text : Option String := none
  candidates : List (List (Option String)) := []
  deriving DecidableEq, Repr

/-- Outcome of one `model.generate_content` call: a response object, or a
raised exception with its message. -/
inductive CallResult where
  | ok (r : GenResponse)
  | raise (e : String)
  deriving DecidableEq, Repr

/-- Configuration and environment of the invoker: credential presence
(`bool(GOOGLE_API_KEY)`), the `USE_GEMINI` flag, the backoff window, the
current wall-clock time, and the network backend as a function from model
name and prompt to a call outcome. -/
structure GeminiCfg where
  hasKey : Bool
  useGemini : Bool
  backoffSeconds : Nat
  now : Nat
  backend : String → String → CallResult

/-- `_gemini_available` from `agents.py`: credential present, feature
enabled, and `time.time() >= _gemini_backoff_until`. -/
def gemini_available (cfg : GeminiCfg) (backoffUntil : Nat) : Bool :=
  cfg.hasKey && cfg.useGemini && decide (backoffUntil ≤ cfg.now)

/-- The rate-limit classification of `_trip_gemini_backoff`: the lowered
message contains `"429"`, `"quota"` or `"rate limit"`. -/
def is_rate_limit (e : String) : Bool :=
  strContains (pyToLower e) "429" || strContains (pyToLower e) "quota" ||
    strContains (pyToLower e) "rate limit"

/-- `_trip_gemini_backoff` from `agents.py`: on a rate-limit error the
global backoff timestamp becomes `now + GEMINI_BACKOFF_SECONDS`. -/
def trip_gemini_backoff (cfg : GeminiCfg) (e : String) (backoffUntil : Nat) : Nat :=
  if is_rate_limit e then cfg.now + cfg.backoffSeconds else backoffUntil

/-- The text extraction of `_run_gemini`: `response.text` if truthy, else
the joined `.text` parts of the first candidate, else `""`; the result is
stripped. -/
def extract_text (r : GenResponse) : String :=
  let t := r.text.getD ""
  let t :=
    if t = "" then
      match r.candidates with
      | [] => t
      | c :: _ => if c ≠ [] then String.join (c.filterMap id) else t
    else t
  pyStrip t

/-- Result of one `_run_gemini` invocation: returned text, the `last_error`
variable at return time, the final backoff timestamp, and the list of
models actually attempted (one generation request each, in order). -/
structure GemResult where
  text : String
  lastError : String
  backoffUntil : Nat
  attempts : List String
  deriving DecidableEq, Repr

/-- The model loop of `_run_gemini`: try each model once; a non-raising
call returns its extracted text; a raising call records the error, trips
the backoff classifier, and moves to the next model; an exhausted chain
yields the error sentinel built from the last error. -/
def run_chain (cfg : GeminiCfg) (prompt : String) :
    List String → String → Nat → GemResult
  | [], lastError, bu =>
      { text := "[Gemini error: " ++ (if lastError = "" then "unavailable" else lastError) ++ "]",
        lastError := lastError, backoffUntil := bu, attempts := [] }
  | m :: rest, lastError, bu =>
      match cfg.backend m prompt with
      | .ok r => { text := extract_text r, lastError := lastError, backoffUntil := bu, attempts := [m] }
      | .raise e =>
          let res := run_chain cfg prompt rest e (trip_gemini_backoff cfg e bu)
          { res with attempts := m :: res.attempts }

/-- `_run_gemini` from `agents.py`: the availability gate followed by the
model loop. -/
def run_gemini (cfg : GeminiCfg) (backoffUntil : Nat) (prompt : String)
    (chain : List String) : GemResult :=
  if gemini_available cfg backoffUntil then run_chain cfg prompt chain "" backoffUntil
  else { text := "[Gemini disabled]", lastError := "", backoffUntil := backoffUntil, attempts := [] }

/-- The invocation loop as the specification words it (for the refinement
check of the model-chain-ordering claim): attempt models in order; a
response carrying non-empty text is returned trimmed and stops the chain;
a raised error is recorded as last error and the next model is attempted;
an exhausted chain yields the sentinel encoding the last error. -/
def run_chain_spec (cfg : GeminiCfg) (prompt : String) :
    List String → String → GemResult
  | [], lastError =>
      { text := "[Gemini error: " ++ (if lastError = "" then "unavailable" else lastError) ++ "]",
        lastError := lastError, backoffUntil := 0, attempts := [] }
  | m :: rest, lastError =>
      match cfg.backend m prompt with
      | .ok r =>
          if extract_text r ≠ "" then
            { text := extract_text r, lastError := lastError, backoffUntil := 0, attempts := [m] }
          else
            let res := run_chain_spec cfg prompt rest lastError
            { res with attempts := m :: res.attempts }
      | .raise e =>
          let res := run_chain_spec cfg prompt rest e
          { res with attempts := m :: res.attempts }

/-! ## agents.py : envelope, agents, orchestrator -/

/-- Valid shapes of the `resources` value parsed from an LLM response
(`result.get('resources', [])` can yield a list or a plain string). -/
inductive ResVal where
  | list (l : List String)
  | str (s : String)
  deriving DecidableEq, Repr

/-- Python falsiness of a `resources` value (`not resources`). -/
def resval_falsy : ResVal → Bool
  | .list l => l.isEmpty
  | .str s => s = ""

/-- The `isinstance(resources, str) and resources.startswith("[Gemini")`
test of `ResourceAgent.handle_envelope`. -/
def resval_gemini_str : ResVal → Bool
  | .list _ => false
  | .str s => strStarts s "[Gemini"

/-- Outcome of `json.loads` plus field extraction in
`DispatchAgent._plan_dispatch` — any raised exception is `failed`, success
carries `result.get('summary', '')` and `result.get('recommendation', '')`. -/
inductive DParse where
  | failed
  | parsed (summary recommendation : String)
  deriving DecidableEq, Repr

/-- Outcome of `json.loads` plus field extraction in
`ResourceAgent.handle_envelope`: success carries
`result.get('resources', [])` and `result.get('summary', '')`. -/
inductive RParse where
  | failed
  | parsed (resources : ResVal) (summary : String)
  deriving DecidableEq, Repr

/-- A decision-history record (`{action, status, message, incident_id,
timestamp}`). -/
structure DEntry where
  action : Option String
  status : String
  message : String
  incident_id : Option String
  timestamp : String
  deriving DecidableEq, Repr

/-- One trace message, typed by the agent that wrote it. -/
inductive TraceMsg where
  | dispatch (summary recommendation : String)
  | resource (resources : ResVal) (resource_summary : String)
  | display (display_summary : String)
  | decision (entry : DEntry)
  deriving DecidableEq, Repr

/-- One `{"agent": ..., "message": ...}` trace record appended by
`MessageEnvelope.add_trace`. -/
structure TraceEntry where
  agent : String
  message : TraceMsg
  deriving DecidableEq, Repr

/-- The `content` mapping of an envelope: every key the agents read or
write, each possibly absent. -/
structure Content where
  incident : Option Incident := none
  summary : Option String := none
  recommendation : Option String := none
  resources : Option ResVal := none
  resource_summary : Option String := none
  display_summary : Option String := none
  urgency : Option String := none
  action : Option String := none
  incident_id : Option String := none
  decision_status : Option String := none
  decision_message : Option String := none
  deriving DecidableEq, Repr

/-- `MessageEnvelope` from `agents.py`. -/
structure MessageEnvelope where
  content : Content := {}
  sender : Option String := none
  receiver : Option String := none
  trace : List TraceEntry := []
  context : List (String × String) := []
  deriving DecidableEq, Repr

/-- `MessageEnvelope.add_trace`. -/
def add_trace (e : MessageEnvelope) (agent : String) (message : TraceMsg) : MessageEnvelope :=
  { e with trace := e.trace ++ [{ agent := agent, message := message }] }

/-- A Python value appearing in the `to_dict` snapshot. -/
inductive PyVal where
  | vMap (c : Content)
  | vOptStr (s : Option String)
  | vTrace (t : List TraceEntry)
  | vCtx (c : List (String × String))
  deriving DecidableEq, Repr

/-- `MessageEnvelope.to_dict`: the serialized snapshot as an ordered
key-value list. -/
def envelope_to_dict (e : MessageEnvelope) : List (String × PyVal) :=
  [("content", .vMap e.content), ("sender", .vOptStr e.sender),
   ("receiver", .vOptStr e.receiver), ("trace", .vTrace e.trace),
   ("context", .vCtx e.context)]

/-- Rendering of an incident dictionary in an f-string prompt (the exact
Python `str(dict)` text is abbreviated; every theorem below quantifies
over the backend, so prompt text never decides a property). -/
def repr_incident (i : Incident) : String :=
  "(incident " ++ pyShowOpt i.itype ++ " " ++ pyShowOpt i.location ++ " " ++
    pyShowOpt i.urgency ++ " " ++ pyShowOpt i.id ++ " " ++ pyShowOpt i.details ++ " " ++
    pyShowOpt i.description ++ ")"

/-- The prompt of `DispatchAgent._plan_dispatch`. -/
def dispatch_prompt (i : Incident) : String :=
  "You are a dispatch agent. Given this incident: " ++ repr_incident i ++
    ", summarize the situation and recommend the best unit to deploy. " ++
    "Respond with a JSON object with \x27summary\x27 and \x27recommendation\x27."

/-- The prompt of `ResourceAgent.handle_envelope`. -/
def resource_prompt (i : Incident) : String :=
  "You are a resource allocation agent. Given this incident: " ++ repr_incident i ++
    ", list the best resources or units to send. " ++
    "Respond with a JSON object with a \x27resources\x27 list and a \x27summary\x27 string."

/-- The prompt of `SummaryAgent.summarize_for_display`. -/
def summary_prompt (summary recommendation urgency : String) : String :=
  "You are a UI assistant for a tiny dispatch terminal. " ++
    "Given this summary: " ++ summary ++ "\n" ++
    "and this recommendation: " ++ recommendation ++ "\n" ++
    "and this urgency: " ++ urgency ++ "\n" ++
    "Generate a concise, plain-language alert (max 60 chars) for a small screen. " ++
    "Do not include JSON, just the message."

/-- Pipeline-wide mutable state threaded through agent invocations: the
process-wide `_gemini_backoff_until` timestamp and the Decision agent
singleton history. -/
structure PipeState where
  backoffUntil : Nat := 0
  dhistory : List DEntry := []
  deriving Repr

/-- Full pipeline configuration: invoker environment, per-role model
chains, the two structured-output parsers (standing for `json.loads` plus
field extraction, made parameters because JSON parsing is external to the
agent logic), the planner randomness and status snapshot, and the decision
timestamp source. -/
structure PipeCfg where
  gem : GeminiCfg
  dispatchChain : List String := DISPATCH_MODEL_CHAIN
  resourceChain : List String := RESOURCE_MODEL_CHAIN
  summaryChain : List String := SUMMARY_MODEL_CHAIN
  jparseD : String → DParse
  jparseR : String → RParse
  jit : String → Int
  statusOf : String → String
  decisionTs : String := ""

/-- `DispatchAgent._plan_dispatch`: invoke the chain, try structured
parsing (a failure substitutes the raw response into both fields), and
fall back to the Planner when the resulting summary is empty or carries a
`[Gemini` sentinel.  Returns the plan and the updated backoff timestamp. -/
def plan_dispatch (cfg : PipeCfg) (bu : Nat) (incident : Incident) :
    (String × String) × Nat :=
  let llm := run_gemini cfg.gem bu (dispatch_prompt incident) cfg.dispatchChain
  let plan :=
    match cfg.jparseD llm.text with
    | .parsed s r => (s, r)
    | .failed => (llm.text, llm.text)
  let plan :=
    if plan.1 = "" ∨ strStarts plan.1 "[Gemini" then
      let fallback := plan_relief_response cfg.jit cfg.statusOf incident 2
      (fallback.summary, fallback.recommendation)
    else plan
  (plan, llm.backoffUntil)

/-- `DispatchAgent.handle_envelope` (memory and session appends are not
modelled; no claim reads them). -/
def dispatch_handle_envelope (cfg : PipeCfg) (e : MessageEnvelope) (st : PipeState) :
    MessageEnvelope × PipeState :=
  let incident := e.content.incident.getD emptyIncident
  let pr := plan_dispatch cfg st.backoffUntil incident
  let content := { e.content with
    incident := some incident,
    summary := some pr.1.1,
    recommendation := some pr.1.2 }
  ({ e with
      content := content,
      trace := e.trace ++ [{ agent := "ResQ-Agent", message := .dispatch pr.1.1 pr.1.2 }] },
   { st with backoffUntil := pr.2 })

/-- The resource computation of `ResourceAgent.handle_envelope`: parse the
response (failure yields an empty list and the raw text as summary);
substitute the Planner output when the resources value is falsy or a
`[Gemini` string. -/
def resource_result (cfg : PipeCfg) (bu : Nat) (incident : Incident) :
    (ResVal × String) × Nat :=
  let llm := run_gemini cfg.gem bu (resource_prompt incident) cfg.resourceChain
  let pr :=
    match cfg.jparseR llm.text with
    | .parsed rv s => (rv, s)
    | .failed => (ResVal.list [], llm.text)
  let pr :=
    if resval_falsy pr.1 ∨ resval_gemini_str pr.1 then
      let fallback := plan_relief_response cfg.jit cfg.statusOf incident 2
      (ResVal.list fallback.resources, fallback.resource_summary)
    else pr
  (pr, llm.backoffUntil)

/-- `ResourceAgent.handle_envelope`. -/
def resource_handle_envelope (cfg : PipeCfg) (e : MessageEnvelope) (st : PipeState) :
    MessageEnvelope × PipeState :=
  let incident := e.content.incident.getD emptyIncident
  let pr := resource_result cfg st.backoffUntil incident
  let content := { e.content with
    resources := some pr.1.1,
    resource_summary := some pr.1.2 }
  ({ e with
      content := content,
      trace := e.trace ++ [{ agent := "Resource-Agent", message := .resource pr.1.1 pr.1.2 }] },
   { st with backoffUntil := pr.2 })

/-- `SummaryAgent.summarize_for_display`: return the backend text stripped,
unless it carries a `[Gemini` sentinel, in which case fall back to
`format_display_alert`. -/
def summarize_for_display (cfg : PipeCfg) (bu : Nat)
    (summary recommendation urgency : String) (incident : Incident) : String × Nat :=
  let llm := run_gemini cfg.gem bu (summary_prompt summary recommendation urgency) cfg.summaryChain
  (if strStarts llm.text "[Gemini" then
     format_display_alert summary recommendation (some incident) (some urgency)
   else pyStrip llm.text,
   llm.backoffUntil)

/-- `SummaryAgent.handle_envelope`. -/
def summary_handle_envelope (cfg : PipeCfg) (e : MessageEnvelope) (st : PipeState) :
    MessageEnvelope × PipeState :=
  let summary := optGetD e.content.summary ""
  let recommendation := optGetD e.content.recommendation ""
  let urgency := optGetD e.content.urgency "CRITICAL"
  let incident := e.content.incident.getD emptyIncident
  let dr := summarize_for_display cfg st.backoffUntil summary recommendation urgency incident
  let content := { e.content with display_summary := some dr.1 }
  ({ e with
      content := content,
      trace := e.trace ++ [{ agent := "Summary-Agent", message := .display dr.1 }] },
   { st with backoffUntil := dr.2 })

/-- Python `history[-10:]`: the suffix of the 10 most recent entries. -/
def lastN (n : Nat) (l : List α) : List α :=
  l.drop (l.length - n)

/-- Construction of one decision-history entry (`handle_envelope` and
`handle_decision` build the identical record). -/
def mkDecisionEntry (action incident_id : Option String) (ts : String) : DEntry :=
  let ok := action = some "SEND" ∨ action = some "HOLD"
  { action := action,
    status := if ok then "success" else "error",
    message := if ok then "Action " ++ pyShowOpt action ++ " processed"
               else "Unknown action: " ++ pyShowOpt action,
    incident_id := incident_id,
    timestamp := ts }

/-- `DecisionAgent.handle_decision`: append the entry and keep the last 10. -/
def decision_handle_decision (hist : List DEntry) (action incident_id : Option String)
    (ts : String) : DEntry × List DEntry :=
  let entry := mkDecisionEntry action incident_id ts
  (entry, lastN 10 (hist ++ [entry]))

/-- `DecisionAgent.handle_envelope`: read `action` and `incident_id` from
the content, record the entry (bounded history), and write
`decision_status` / `decision_message`. -/
def decision_handle_envelope (hist : List DEntry) (e : MessageEnvelope) (ts : String) :
    MessageEnvelope × List DEntry :=
  let entry := mkDecisionEntry e.content.action e.content.incident_id ts
  let hist2 := lastN 10 (hist ++ [entry])
  let content := { e.content with
    decision_status := some entry.status,
    decision_message := some entry.message }
  ({ e with
      content := content,
      trace := e.trace ++ [{ agent := "Decision-Agent", message := .decision entry }] },
   hist2)

/-- An agent as the orchestrator sees it: a name and a
`handle_envelope`-shaped step. -/
structure AgentSpec where
  name : String
  step : MessageEnvelope → PipeState → MessageEnvelope × PipeState

/-- `A2AOrchestrator.orchestrate`: for each agent, rotate
`sender`/`receiver` and replace the working envelope by the agent result. -/
def a2a_orchestrate (agents : List AgentSpec) (e : MessageEnvelope) (st : PipeState) :
    MessageEnvelope × PipeState :=
  agents.foldl (fun p ag =>
    let e2 := { p.1 with sender := p.1.receiver, receiver := some ag.name }
    ag.step e2 p.2) (e, st)

/-- The Dispatch agent as configured by `get_dispatch_agent`
(`name="ResQ-Agent"`). -/
def dispatch_agent (cfg : PipeCfg) : AgentSpec :=
  { name := "ResQ-Agent", step := dispatch_handle_envelope cfg }

/-- The Resource agent (`name="Resource-Agent"`). -/
def resource_agent (cfg : PipeCfg) : AgentSpec :=
  { name := "Resource-Agent", step := resource_handle_envelope cfg }

/-- The Summary agent (`name="Summary-Agent"`). -/
def summary_agent (cfg : PipeCfg) : AgentSpec :=
  { name := "Summary-Agent", step := summary_handle_envelope cfg }

/-- The Decision agent (`name="Decision-Agent"`), stepping the singleton
history held in the pipeline state. -/
def decision_agent (cfg : PipeCfg) : AgentSpec :=
  { name := "Decision-Agent",
    step := fun e st =>
      let r := decision_handle_envelope st.dhistory e cfg.decisionTs
      (r.1, { st with dhistory := r.2 }) }

/-- The agent list built by `get_a2a_orchestrator`. -/
def default_agents (cfg : PipeCfg) : List AgentSpec :=
  [dispatch_agent cfg, resource_agent cfg, summary_agent cfg, decision_agent cfg]

/-- The standard 4-agent orchestration run. -/
def a2a_orchestrate4 (cfg : PipeCfg) (e : MessageEnvelope) (st : PipeState) :
    MessageEnvelope × PipeState :=
  a2a_orchestrate (default_agents cfg) e st

/-- The Dispatch → Resource → Summary run of the total-fallback property. -/
def pipeline3 (cfg : PipeCfg) (e : MessageEnvelope) (st : PipeState) :
    MessageEnvelope × PipeState :=
  a2a_orchestrate [dispatch_agent cfg, resource_agent cfg, summary_agent cfg] e st

/-! ## Helper lemmas -/

/-- String length is the character-list length. -/
theorem strLength_eq_data (s : String) : s.length = s.data.length := rfl

/-- Two strings with different character lists differ. -/
theorem str_mk_ne_empty {l : List Char} (h : l ≠ []) : String.mk l ≠ "" := by
  intro hc
  exact h (congrArg String.data hc)

/-- A string of positive length is non-empty. -/
theorem ne_empty_of_length_pos {s : String} (h : 0 < s.length) : s ≠ "" := by
  intro hc
  rw [hc] at h
  exact Nat.lt_irrefl 0 h

/-- Stripping keeps something whenever the list has a non-whitespace
character. -/
theorem stripChars_ne_nil {l : List Char} (h : ∃ c ∈ l, ¬(c.isWhitespace = true)) :
    stripChars l ≠ [] := by
  obtain ⟨c, hc, hw⟩ := h
  have h1 : c ∈ l.dropWhile Char.isWhitespace := by
    have hsplit := List.takeWhile_append_dropWhile (p := Char.isWhitespace) (l := l)
    rw [← hsplit] at hc
    rcases List.mem_append.mp hc with h' | h'
    · exact absurd (List.mem_takeWhile_imp h') hw
    · exact h'
  have h2 : c ∈ (l.dropWhile Char.isWhitespace).reverse := List.mem_reverse.mpr h1
  intro hnil
  have h3 : ((l.dropWhile Char.isWhitespace).reverse.dropWhile Char.isWhitespace) = [] := by
    have := congrArg List.reverse hnil
    simpa [stripChars] using this
  exact hw (List.dropWhile_eq_nil_iff.mp h3 c h2)

/-- `pyStrip` keeps something whenever the string has a non-whitespace
character. -/
theorem pyStrip_ne_empty {s : String} (h : ∃ c ∈ s.data, ¬(c.isWhitespace = true)) :
    pyStrip s ≠ "" :=
  str_mk_ne_empty (stripChars_ne_nil h)

/-- A list is a `isPrefixOf`-prefix of itself extended on the right. -/
theorem isPrefixOf_append (l m : List Char) : l.isPrefixOf (l ++ m) = true := by
  induction l with
  | nil => cases m <;> rfl
  | cons a t ih => simp [List.isPrefixOf, ih]

/-- `startswith` holds for a literal prefix. -/
theorem strStarts_append (p t : String) : strStarts (p ++ t) p = true := by
  unfold strStarts
  rw [String.data_append]
  exact isPrefixOf_append p.data t.data

/-- `lastN` never keeps more than `n` entries. -/
theorem lastN_length_le (n : Nat) (l : List α) : (lastN n l).length ≤ n := by
  unfold lastN
  rw [List.length_drop]
  omega

/-- A short list is untouched by `lastN`. -/
theorem lastN_of_le {n : Nat} {l : List α} (h : l.length ≤ n) : lastN n l = l := by
  unfold lastN
  have : l.length - n = 0 := by omega
  rw [this, List.drop_zero]

/-- Re-truncating after an append is the same as truncating the whole
history: the key absorption property of the bounded decision history. -/
theorem lastN_append_absorb (n : Nat) (xs ys : List α) :
    lastN n (lastN n xs ++ ys) = lastN n (xs ++ ys) := by
  unfold lastN
  rw [List.length_append, List.length_append, List.length_drop,
    List.drop_append_eq_append_drop, List.drop_append_eq_append_drop, List.drop_drop,
    List.length_drop]
  rcases Nat.le_total xs.length n with h | h
  · have h1 : xs.length - n = 0 := by omega
    simp [h1]
  · have h1 : xs.length - (xs.length - n) = n := by omega
    rw [h1]
    have h2 : xs.length - n + (n + ys.length - n) = xs.length + ys.length - n := by omega
    have h3 : n + ys.length - n - n = xs.length + ys.length - n - xs.length := by omega
    rw [h2, h3]

/-- Association lookup on a cons cell, phrased with a propositional `if`. -/
theorem lookup_cons_eq_str (k a : String) (c : UStatus) (l : List (String × UStatus)) :
    List.lookup k ((a, c) :: l) = if k = a then some c else List.lookup k l := by
  by_cases h : k = a
  · simp [List.lookup, h]
  · have hb : (k == a) = false := beq_eq_false_iff_ne.mpr h
    simp [List.lookup, hb, h]

/-- Looking up a different key is unaffected by `set_unit_assigned`. -/
theorem lookup_set_unit_assigned_ne (uid k : String) (iid : Option String) (ts : String)
    (m : List (String × UStatus)) (h : k ≠ uid) :
    (set_unit_assigned uid iid ts m).lookup k = m.lookup k := by
  unfold set_unit_assigned
  induction m with
  | nil => rfl
  | cons p rest ih =>
    obtain ⟨a, b⟩ := p
    rw [List.map_cons]
    by_cases hp : a = uid
    · have hfa : (if (a, b).1 = uid
          then ((a, b).1, ({ status := "assigned", incident_id := iid, last_updated := ts } : UStatus))
          else (a, b)) =
          (a, ({ status := "assigned", incident_id := iid, last_updated := ts } : UStatus)) := by
        simp [hp]
      have hka : k ≠ a := fun hh => h (hh.trans hp)
      rw [hfa, lookup_cons_eq_str, lookup_cons_eq_str, if_neg hka, if_neg hka, ih]
    · have hfa : (if (a, b).1 = uid
          then ((a, b).1, ({ status := "assigned", incident_id := iid, last_updated := ts } : UStatus))
          else (a, b)) = (a, b) := by
        simp [hp]
      rw [hfa, lookup_cons_eq_str, lookup_cons_eq_str]
      by_cases hk : k = a
      · rw [if_pos hk, if_pos hk]
      · rw [if_neg hk, if_neg hk, ih]

/-- A present key is rewritten to the assigned record by
`set_unit_assigned`. -/
theorem lookup_set_unit_assigned_self (uid : String) (iid : Option String) (ts : String)
    (m : List (String × UStatus)) (h : (m.lookup uid).isSome) :
    (set_unit_assigned uid iid ts m).lookup uid =
      some { status := "assigned", incident_id := iid, last_updated := ts } := by
  unfold set_unit_assigned
  induction m with
  | nil => simp [List.lookup] at h
  | cons p rest ih =>
    obtain ⟨a, b⟩ := p
    rw [List.map_cons]
    by_cases hp : a = uid
    · have hfa : (if (a, b).1 = uid
          then ((a, b).1, ({ status := "assigned", incident_id := iid, last_updated := ts } : UStatus))
          else (a, b)) =
          (a, ({ status := "assigned", incident_id := iid, last_updated := ts } : UStatus)) := by
        simp [hp]
      rw [hfa, lookup_cons_eq_str, if_pos hp.symm]
    · have hfa : (if (a, b).1 = uid
          then ((a, b).1, ({ status := "assigned", incident_id := iid, last_updated := ts } : UStatus))
          else (a, b)) = (a, b) := by
        simp [hp]
      have hne : uid ≠ a := fun hh => hp hh.symm
      rw [hfa, lookup_cons_eq_str, if_neg hne]
      rw [lookup_cons_eq_str, if_neg hne] at h
      exact ih h

/-- Claim C10: `notify_dispatch` always returns a `"queued"` record carrying
the incident id, the incident location and the timestamp; on an unknown
unit id the status map is left entirely unchanged; on a known unit id only
that unit's entry changes, becoming `"assigned"` to that incident. -/
theorem claim_C10_notify_dispatch_frame (uid : String) (i : Incident) (ts : String)
    (m : List (String × UStatus)) :
    (notify_dispatch uid i ts m).1 =
      { unit_id := uid, incident_id := i.id, location := i.location,
        timestamp := ts, status := "queued" }
    ∧ (m.lookup uid = none → (notify_dispatch uid i ts m).2 = m)
    ∧ (∀ k, k ≠ uid → ((notify_dispatch uid i ts m).2).lookup k = m.lookup k)
    ∧ ((m.lookup uid).isSome →
        ((notify_dispatch uid i ts m).2).lookup uid =
          some { status := "assigned", incident_id := i.id, last_updated := ts }) := by
  refine ⟨rfl, ?_, ?_, ?_⟩
  · intro h
    simp [notify_dispatch, h]
  · intro k hk
    by_cases hs : (m.lookup uid).isSome
    · simp [notify_dispatch, hs, lookup_set_unit_assigned_ne uid k i.id ts m hk]
    · simp [notify_dispatch, hs]
  · intro h
    simp [notify_dispatch, h, lookup_set_unit_assigned_self uid i.id ts m h]

/-- Witness for claim C10 at a concrete known unit and a concrete status
map. -/
theorem claim_C10_witness :
    (notify_dispatch "Fire-1" { id := some "i1", location := some "Sector 7" } "T1"
        (initial_unit_status "T0")).2.lookup "Fire-1" =
      some { status := "assigned", incident_id := some "i1", last_updated := "T1" } :=
  (claim_C10_notify_dispatch_frame "Fire-1"
    { id := some "i1", location := some "Sector 7" } "T1"
    (initial_unit_status "T0")).2.2.2 (by decide)

/-- Claim C9 counterexample: the serialized snapshot of an envelope has
five keys, not four. -/
theorem claim_C9_counterexample :
    ((envelope_to_dict {}).map Prod.fst).length = 5 ∧
      ¬ ((envelope_to_dict {}).map Prod.fst).length = 4 := by
  constructor
  · rfl
  · decide

/-- Claim C9 (amended): `to_dict` produces exactly the five public fields
`content`, `sender`, `receiver`, `trace`, `context` — in that order and
nothing else — each carrying the corresponding attribute value. -/
theorem claim_C9_to_dict_fields (e : MessageEnvelope) :
    (envelope_to_dict e).map Prod.fst = ["content", "sender", "receiver", "trace", "context"]
    ∧ (envelope_to_dict e).lookup "content" = some (.vMap e.content)
    ∧ (envelope_to_dict e).lookup "sender" = some (.vOptStr e.sender)
    ∧ (envelope_to_dict e).lookup "receiver" = some (.vOptStr e.receiver)
    ∧ (envelope_to_dict e).lookup "trace" = some (.vTrace e.trace)
    ∧ (envelope_to_dict e).lookup "context" = some (.vCtx e.context) :=
  ⟨rfl, rfl, rfl, rfl, rfl, rfl⟩

/-- One submission to the Decision agent: either a legacy
`handle_decision` call or an envelope pass. -/
inductive DecisionSub where
  | direct (action incident_id : Option String) (ts : String)
  | env (e : MessageEnvelope) (ts : String)

/-- The history entry a submission appends. -/
def subEntry : DecisionSub → DEntry
  | .direct a i ts => mkDecisionEntry a i ts
  | .env e ts => mkDecisionEntry e.content.action e.content.incident_id ts

/-- The decision history after one submission. -/
def decision_submit (h : List DEntry) : DecisionSub → List DEntry
  | .direct a i ts => (decision_handle_decision h a i ts).2
  | .env e ts => (decision_handle_envelope h e ts).2

/-- Both submission paths are the same append-then-truncate step. -/
theorem decision_submit_eq (h : List DEntry) (s : DecisionSub) :
    decision_submit h s = lastN 10 (h ++ [subEntry s]) := by
  cases s <;> rfl

/-- Claim C7: from any history within the bound, any sequence of decision
submissions (direct calls or envelope passes) leaves exactly the most
recent entries in arrival order, never more than 10; in particular 15
submissions into an empty history leave exactly the last 10 entries, the 5
oldest dropped. -/
theorem claim_C7_decision_history_bound (h0 : List DEntry) (subs : List DecisionSub)
    (hlen : h0.length ≤ 10) :
    subs.foldl decision_submit h0 = lastN 10 (h0 ++ subs.map subEntry)
    ∧ (subs.foldl decision_submit h0).length ≤ 10
    ∧ (h0 = [] → subs.length = 15 →
        subs.foldl decision_submit h0 = (subs.map subEntry).drop 5) := by
  have main : ∀ (ss : List DecisionSub) (h : List DEntry), h.length ≤ 10 →
      ss.foldl decision_submit h = lastN 10 (h ++ ss.map subEntry) := by
    intro ss
    induction ss with
    | nil =>
        intro h hl
        simpa using (lastN_of_le hl).symm
    | cons s rest ih =>
        intro h hl
        rw [List.foldl_cons, decision_submit_eq, ih _ (lastN_length_le 10 _),
          lastN_append_absorb]
        simp [List.append_assoc]
  refine ⟨main subs h0 hlen, ?_, ?_⟩
  · rw [main subs h0 hlen]
    exact lastN_length_le 10 _
  · intro he h15
    rw [main subs h0 hlen, he]
    simp only [List.nil_append]
    unfold lastN
    rw [List.length_map, h15]

/-- Fifteen concrete valid submissions for the claim C7 witness. -/
def subs15 : List DecisionSub :=
  (List.range 15).map (fun k => .direct (some "SEND") (some (toString k)) (toString k))

/-- Witness for claim C7: the 15-submission run keeps exactly the last 10
entries. -/
theorem claim_C7_witness :
    (subs15.foldl decision_submit []).length ≤ 10 ∧
      subs15.foldl decision_submit [] = (subs15.map subEntry).drop 5 :=
  ⟨(claim_C7_decision_history_bound [] subs15 (by decide)).2.1,
   (claim_C7_decision_history_bound [] subs15 (by decide)).2.2 rfl (by decide)⟩

/-- Claim C8: a standard 4-agent orchestration appends exactly one trace
entry per agent, in invocation order, each naming its agent; in particular
an initially empty trace ends with exactly 4 entries. -/
theorem claim_C8_trace_completeness (cfg : PipeCfg) (e : MessageEnvelope) (st : PipeState) :
    ((a2a_orchestrate4 cfg e st).1.trace.map TraceEntry.agent) =
      e.trace.map TraceEntry.agent ++
        ["ResQ-Agent", "Resource-Agent", "Summary-Agent", "Decision-Agent"]
    ∧ (a2a_orchestrate4 cfg e st).1.trace.length = e.trace.length + 4 := by
  constructor
  · simp [a2a_orchestrate4, a2a_orchestrate, default_agents, dispatch_agent, resource_agent,
      summary_agent, decision_agent, dispatch_handle_envelope, resource_handle_envelope,
      summary_handle_envelope, decision_handle_envelope, List.map_append]
  · simp [a2a_orchestrate4, a2a_orchestrate, default_agents, dispatch_agent, resource_agent,
      summary_agent, decision_agent, dispatch_handle_envelope, resource_handle_envelope,
      summary_handle_envelope, decision_handle_envelope, List.length_append]

/-- Filtering a score class through an `orderedInsert` keeps the inserted
element in front of its class exactly when it belongs to the class. -/
theorem filter_orderedInsert_score (s : Nat) (a : Nat × EUnit) (l : List (Nat × EUnit)) :
    (List.orderedInsert scoreGE a l).filter (fun p => p.1 == s) =
      if a.1 = s then a :: l.filter (fun p => p.1 == s)
      else l.filter (fun p => p.1 == s) := by
  rw [List.orderedInsert_eq_take_drop, List.filter_append]
  have hsplit := List.takeWhile_append_dropWhile
    (p := fun b => decide ¬ scoreGE a b) (l := l)
  by_cases ha : a.1 = s
  · rw [if_pos ha]
    have htake : (l.takeWhile fun b => decide ¬ scoreGE a b).filter (fun p => p.1 == s) = [] := by
      rw [List.filter_eq_nil_iff]
      intro b hb
      have hgt : ¬ scoreGE a b :=
        of_decide_eq_true (List.mem_takeWhile_imp (p := fun b => decide ¬ scoreGE a b) hb)
      have hbs : b.1 ≠ s := by
        intro hcontra
        exact hgt (by unfold scoreGE; omega)
      simp [hbs]
    have hl : l.filter (fun p => p.1 == s) =
        (l.dropWhile fun b => decide ¬ scoreGE a b).filter (fun p => p.1 == s) := by
      conv_lhs => rw [← hsplit]
      rw [List.filter_append, htake, List.nil_append]
    rw [htake, List.nil_append, List.filter_cons_of_pos (by simp [ha]), ← hl]
  · rw [if_neg ha, List.filter_cons_of_neg (by simp [ha]), ← List.filter_append, hsplit]

/-- The stable descending sort leaves every score class in its incoming
order: ties keep the ETA-sorted candidate order. -/
theorem filter_insertionSort_score (s : Nat) (l : List (Nat × EUnit)) :
    (List.insertionSort scoreGE l).filter (fun p => p.1 == s) =
      l.filter (fun p => p.1 == s) := by
  induction l with
  | nil => rfl
  | cons a t ih =>
    show (List.orderedInsert scoreGE a (List.insertionSort scoreGE t)).filter
        (fun p => p.1 == s) = (a :: t).filter (fun p => p.1 == s)
    rw [filter_orderedInsert_score, ih]
    by_cases ha : a.1 = s
    · rw [if_pos ha, List.filter_cons_of_pos (by simp [ha])]
    · rw [if_neg ha, List.filter_cons_of_neg (by simp [ha])]

/-- The scoring rule as the specification words it, for units without an
empty-string capability (every registry unit): the truthiness guard of the
source is redundant there. -/
theorem score_unit_eq_spec (u : RUnit) (incident : Incident)
    (hcap : ("" : String) ∉ u.capabilities) :
    score_unit u incident =
      (if pynormalize incident.itype ∈ u.capabilities then 4 else 0) +
      (if strContains u.utype (pynormalize incident.itype) = true then 3 else 0) +
      (if pynormalize incident.urgency = "critical" ∨ pynormalize incident.urgency = "high"
        then 2 else 0) := by
  simp only [score_unit]
  by_cases hit : pynormalize incident.itype = ""
  · rw [hit,
      if_neg (show ¬(("" : String) ≠ "" ∧ u.capabilities.contains "" = true) by simp),
      if_neg hcap]
  · have hiff : (pynormalize incident.itype ≠ "" ∧
        u.capabilities.contains (pynormalize incident.itype) = true) ↔
        pynormalize incident.itype ∈ u.capabilities := by
      constructor
      · intro hp
        exact List.elem_iff.mp hp.2
      · intro hm
        exact ⟨hit, List.elem_iff.mpr hm⟩
    rw [if_congr hiff rfl rfl]

/-- An `available_candidates` entry determines its unit and ETA shape. -/
theorem candidate_inversion (A B : Prop) [Decidable A] [Decidable B] (x e : EUnit)
    (h : (if A then none else if B then none else some x) = some e) : e = x := by
  by_cases hA : A
  · rw [if_pos hA] at h
    cases h
  · rw [if_neg hA] at h
    by_cases hB : B
    · rw [if_pos hB] at h
      cases h
    · rw [if_neg hB] at h
      exact (Option.some.inj h).symm

/-- Claim C5 (amended): each registry unit scores +4 for a capability
match, +3 for a type-substring match, +2 for critical or high urgency;
units scoring ≤ 0 are excluded; the remaining pairs are sorted by score
descending by a stable sort whose ties keep the order of the ETA-sorted
candidate list produced by `get_available_units` (registry order only when
the two coincide); the top `limit` units are returned. -/
theorem claim_C5_scoring_and_selection (jit : String → Int) (statusOf : String → String)
    (incident : Incident) (limit : Nat) :
    (∀ u ∈ UNIT_REGISTRY, score_unit u incident =
        (if pynormalize incident.itype ∈ u.capabilities then 4 else 0) +
        (if strContains u.utype (pynormalize incident.itype) = true then 3 else 0) +
        (if pynormalize incident.urgency = "critical" ∨ pynormalize incident.urgency = "high"
          then 2 else 0))
    ∧ ranked_pairs jit statusOf incident =
        ((get_available_units jit statusOf none none).map
          (fun e => (score_unit e.unit incident, e))).filter (fun p => decide (0 < p.1))
    ∧ (∀ p ∈ List.insertionSort scoreGE (ranked_pairs jit statusOf incident),
        0 < p.1 ∧ p.2 ∈ get_available_units jit statusOf none none ∧
          p.1 = score_unit p.2.unit incident)
    ∧ List.Sorted scoreGE (List.insertionSort scoreGE (ranked_pairs jit statusOf incident))
    ∧ (∀ s, (List.insertionSort scoreGE (ranked_pairs jit statusOf incident)).filter
          (fun p => p.1 == s) =
        (ranked_pairs jit statusOf incident).filter (fun p => p.1 == s))
    ∧ recommend_units_for_incident jit statusOf incident limit =
        ((List.insertionSort scoreGE (ranked_pairs jit statusOf incident)).take limit).map (·.2)
    ∧ (recommend_units_for_incident jit statusOf incident limit).length ≤ limit := by
  refine ⟨?_, rfl, ?_, List.sorted_insertionSort scoreGE _,
    fun s => filter_insertionSort_score s _, rfl, ?_⟩
  · intro u hu
    apply score_unit_eq_spec
    have hall : ∀ v ∈ UNIT_REGISTRY, ("" : String) ∉ v.capabilities := by decide
    exact hall u hu
  · intro p hp
    have hp2 : p ∈ ranked_pairs jit statusOf incident :=
      (List.perm_insertionSort scoreGE _).mem_iff.mp hp
    unfold ranked_pairs at hp2
    obtain ⟨hpm, hppos⟩ := List.mem_filter.mp hp2
    obtain ⟨e, he, hpe⟩ := List.mem_map.mp hpm
    subst hpe
    exact ⟨of_decide_eq_true hppos, he, rfl⟩
  · unfold recommend_units_for_incident
    rw [List.length_map, List.length_take]
    exact Nat.min_le_left _ _

/-- Concrete adversarial jitter for the stable-sort-order counterexample. -/
def exJitC : String → Int :=
  fun id => if id = "Fire-1" then 1 else if id = "Fire-2" then 0 else -1

/-- The all-available unit-status snapshot. -/
def allAvailable : String → String := fun _ => "available"

/-- An incident whose normalized type is a substring of every unit type, so
every unit ties at score 3. -/
def exIncidentE : Incident := { itype := some "e", urgency := some "low" }

/-- The selection as the claim words it: score descending with ties kept
in REGISTRY order rather than in ETA-candidate order. -/
def recommend_units_spec_registry (jit : String → Int) (statusOf : String → String)
    (incident : Incident) (limit : Nat) : List EUnit :=
  let cands := get_available_units jit statusOf none none
  let regOrder := UNIT_REGISTRY.filterMap (fun u => cands.find? (fun e => e.unit.id == u.id))
  ((List.insertionSort scoreGE ((regOrder.map (fun e => (score_unit e.unit incident, e))).filter
      (fun p => decide (0 < p.1)))).take limit).map (·.2)

/-- Claim C5 counterexample: with jitter `Fire-1 ↦ +1`, `Fire-2 ↦ 0`,
others `↦ -1`, all four units tie at score 3, the ETA order is
`Ambulance-2, Fire-1, Fire-2, Rescue-3`, and the code selects
`[Ambulance-2, Fire-1]` — while ties kept in registry order would select
`[Fire-1, Fire-2]`. -/
theorem claim_C5_counterexample :
    (recommend_units_for_incident exJitC allAvailable exIncidentE 2).map (fun e => e.unit.id) =
      ["Ambulance-2", "Fire-1"]
    ∧ (recommend_units_spec_registry exJitC allAvailable exIncidentE 2).map (fun e => e.unit.id) =
      ["Fire-1", "Fire-2"]
    ∧ recommend_units_for_incident exJitC allAvailable exIncidentE 2 ≠
      recommend_units_spec_registry exJitC allAvailable exIncidentE 2 :=
  ⟨by decide, by decide, by decide⟩

/-- Witness for claim C5 at a concrete registry unit, discharging the
registry-membership hypothesis. -/
theorem claim_C5_witness :
    score_unit ⟨"Fire-1", "fire", "Station Alpha", ["structure", "industrial"], 5⟩ exIncidentE =
      (if pynormalize exIncidentE.itype ∈ (["structure", "industrial"] : List String)
        then 4 else 0) +
      (if strContains "fire" (pynormalize exIncidentE.itype) = true then 3 else 0) +
      (if pynormalize exIncidentE.urgency = "critical" ∨ pynormalize exIncidentE.urgency = "high"
        then 2 else 0) :=
  (claim_C5_scoring_and_selection exJitC allAvailable exIncidentE 2).1
    ⟨"Fire-1", "fire", "Station Alpha", ["structure", "industrial"], 5⟩ (by decide)

/-- Claim C6: every returned unit carries
`eta = max(3, base_eta + sector_modifier/2 + jitter)` with the modifier
looked up from the sector table on the normalized unit location (6 when
unknown), jitter staying in `{-1, 0, 1}`; and the returned list is sorted
ascending by this ETA. -/
theorem claim_C6_eta_formula_and_sorting (jit : String → Int) (statusOf : String → String)
    (unit_type : Option String) (limit : Option Nat)
    (hj : ∀ id, jit id = -1 ∨ jit id = 0 ∨ jit id = 1) :
    (∀ e ∈ get_available_units jit statusOf unit_type limit,
        e.eta_minutes = max 3 ((e.unit.base_eta : Int) +
          ((((SECTOR_MODIFIERS.lookup (pynormalize (some e.unit.location))).getD 6) / 2 : Nat) : Int) +
          jit e.unit.id)
        ∧ (jit e.unit.id = -1 ∨ jit e.unit.id = 0 ∨ jit e.unit.id = 1))
    ∧ List.Sorted etaLE (get_available_units jit statusOf unit_type limit)
    ∧ (∀ loc : Option String, SECTOR_MODIFIERS.lookup (pynormalize loc) = none →
        (SECTOR_MODIFIERS.lookup (pynormalize loc)).getD 6 = 6) := by
  have hmem : ∀ e ∈ get_available_units jit statusOf unit_type limit,
      e ∈ available_candidates jit statusOf unit_type := by
    intro e he
    have h2 : e ∈ List.insertionSort etaLE (available_candidates jit statusOf unit_type) := by
      cases limit with
      | none => exact he
      | some n =>
          simp only [get_available_units] at he
          by_cases hn : n ≠ 0
          · rw [if_pos hn] at he
            exact List.take_subset n _ he
          · rwa [if_neg hn] at he
    exact ((List.perm_insertionSort etaLE _).mem_iff).mp h2
  refine ⟨?_, ?_, ?_⟩
  · intro e he
    obtain ⟨u, _, hfe⟩ := List.mem_filterMap.mp (hmem e he)
    have heq : e = ⟨u, estimate_arrival_minutes u (some u.location) (jit u.id)⟩ :=
      candidate_inversion _ _ _ e hfe
    subst heq
    exact ⟨by simp [estimate_arrival_minutes], hj u.id⟩
  · have hs : List.Sorted etaLE
        (List.insertionSort etaLE (available_candidates jit statusOf unit_type)) :=
      List.sorted_insertionSort etaLE _
    cases limit with
    | none => exact hs
    | some n =>
        simp only [get_available_units]
        by_cases hn : n ≠ 0
        · rw [if_pos hn]
          exact List.Pairwise.sublist (List.take_sublist n _) hs
        · rwa [if_neg hn]
  · intro loc hnone
    rw [hnone]
    rfl

/-- Witness for claim C6: zero jitter, all units available — the returned
list is ETA-sorted `[8, 9, 10, 11]`. -/
theorem claim_C6_witness :
    List.Sorted etaLE (get_available_units (fun _ => 0) allAvailable none none) ∧
      (get_available_units (fun _ => 0) allAvailable none none).map EUnit.eta_minutes =
        [8, 9, 10, 11] :=
  ⟨(claim_C6_eta_formula_and_sorting (fun _ => 0) allAvailable none none
      (fun _ => Or.inr (Or.inl rfl))).2.1,
   by decide⟩

/-- Under availability and non-empty successful responses, the model loop
computes exactly what the specification wording prescribes. -/
theorem run_chain_eq_spec (cfg : GeminiCfg) (prompt : String)
    (hok : ∀ m r, cfg.backend m prompt = .ok r → extract_text r ≠ "") :
    ∀ (chain : List String) (le : String) (bu : Nat),
      (run_chain cfg prompt chain le bu).text = (run_chain_spec cfg prompt chain le).text
      ∧ (run_chain cfg prompt chain le bu).lastError =
          (run_chain_spec cfg prompt chain le).lastError
      ∧ (run_chain cfg prompt chain le bu).attempts =
          (run_chain_spec cfg prompt chain le).attempts := by
  intro chain
  induction chain with
  | nil => exact fun le bu => ⟨rfl, rfl, rfl⟩
  | cons m rest ih =>
    intro le bu
    cases hb : cfg.backend m prompt with
    | ok r =>
        have hne := hok m r hb
        simp [run_chain, run_chain_spec, hb, hne]
    | raise e =>
        obtain ⟨ht, hl, ha⟩ := ih e (trip_gemini_backoff cfg e bu)
        simp [run_chain, run_chain_spec, hb, ht, hl, ha]

/-- The attempted models always form a prefix of the chain. -/
theorem run_chain_attempts_prefix (cfg : GeminiCfg) (prompt : String) :
    ∀ (chain : List String) (le : String) (bu : Nat),
      (run_chain cfg prompt chain le bu).attempts <+: chain := by
  intro chain
  induction chain with
  | nil => exact fun le bu => List.nil_prefix
  | cons m rest ih =>
    intro le bu
    cases hb : cfg.backend m prompt with
    | ok r =>
        refine ⟨rest, ?_⟩
        simp [run_chain, hb]
    | raise e =>
        obtain ⟨t, ht⟩ := ih e (trip_gemini_backoff cfg e bu)
        refine ⟨t, ?_⟩
        simpa [run_chain, hb] using congrArg (List.cons m) ht

/-- When no model returns, the loop yields the error sentinel built from
its recorded last error. -/
theorem run_chain_all_fail (cfg : GeminiCfg) (prompt : String) :
    ∀ (chain : List String) (le : String) (bu : Nat),
      (∀ m ∈ chain, ∀ r, cfg.backend m prompt ≠ .ok r) →
      (run_chain cfg prompt chain le bu).text =
        "[Gemini error: " ++
          (if (run_chain cfg prompt chain le bu).lastError = "" then "unavailable"
           else (run_chain cfg prompt chain le bu).lastError) ++ "]" := by
  intro chain
  induction chain with
  | nil => exact fun le bu _ => rfl
  | cons m rest ih =>
    intro le bu h
    cases hb : cfg.backend m prompt with
    | ok r => exact absurd hb (h m (List.mem_cons_self m rest) r)
    | raise e =>
        simp only [run_chain, hb]
        exact ih e (trip_gemini_backoff cfg e bu)
          (fun m2 hm2 => h m2 (List.mem_cons_of_mem m hm2))

/-- When every model fails, the recorded last error is the last (most
recent) model's error. -/
theorem run_chain_last_error (cfg : GeminiCfg) (prompt : String) :
    ∀ (pre : List String) (m : String) (e le : String) (bu : Nat),
      (∀ m2 ∈ pre ++ [m], ∀ r, cfg.backend m2 prompt ≠ .ok r) →
      cfg.backend m prompt = .raise e →
      (run_chain cfg prompt (pre ++ [m]) le bu).lastError = e := by
  intro pre
  induction pre with
  | nil =>
      intro m e le bu _ hm
      simp [run_chain, hm]
  | cons a t ih =>
      intro m e le bu h hm
      cases hb : cfg.backend a prompt with
      | ok r => exact absurd hb (h a (by simp) r)
      | raise e2 =>
          simp only [List.cons_append, run_chain, hb]
          exact ih m e e2 (trip_gemini_backoff cfg e2 bu)
            (fun m2 hm2 => h m2 (by simp at hm2 ⊢; tauto)) hm

/-- Claim C2: with the availability gate passed and every non-raising
response carrying non-empty text, the invoker attempts models in order
(the attempts are a prefix of the chain), behaves exactly as the
specification loop (first non-empty text returned trimmed, raising models
recorded and skipped, exhaustion yields the error sentinel encoding the
last error), and on a chain `[A, B, C]` with `A`, `B` failing and `C`
succeeding returns the text of `C` with last error from `B`. -/
theorem claim_C2_model_chain_ordering (cfg : GeminiCfg) (bu : Nat) (prompt : String)
    (chain : List String)
    (hgate : gemini_available cfg bu = true)
    (hok : ∀ m r, cfg.backend m prompt = .ok r → extract_text r ≠ "") :
    ((run_gemini cfg bu prompt chain).text = (run_chain_spec cfg prompt chain "").text
      ∧ (run_gemini cfg bu prompt chain).lastError =
          (run_chain_spec cfg prompt chain "").lastError
      ∧ (run_gemini cfg bu prompt chain).attempts =
          (run_chain_spec cfg prompt chain "").attempts)
    ∧ (run_gemini cfg bu prompt chain).attempts <+: chain
    ∧ (∀ A B C ea eb rc, chain = [A, B, C] →
        cfg.backend A prompt = .raise ea → cfg.backend B prompt = .raise eb →
        cfg.backend C prompt = .ok rc →
        (run_gemini cfg bu prompt chain).text = extract_text rc ∧
          (run_gemini cfg bu prompt chain).lastError = eb)
    ∧ ((∀ m ∈ chain, ∀ r, cfg.backend m prompt ≠ .ok r) →
        (run_gemini cfg bu prompt chain).text =
          "[Gemini error: " ++
            (if (run_gemini cfg bu prompt chain).lastError = "" then "unavailable"
             else (run_gemini cfg bu prompt chain).lastError) ++ "]")
    ∧ (∀ pre m e, chain = pre ++ [m] →
        (∀ m2 ∈ chain, ∀ r, cfg.backend m2 prompt ≠ .ok r) →
        cfg.backend m prompt = .raise e →
        (run_gemini cfg bu prompt chain).lastError = e) := by
  have hrg : run_gemini cfg bu prompt chain = run_chain cfg prompt chain "" bu := by
    simp [run_gemini, hgate]
  refine ⟨?_, ?_, ?_, ?_, ?_⟩
  · rw [hrg]
    exact run_chain_eq_spec cfg prompt hok chain "" bu
  · rw [hrg]
    exact run_chain_attempts_prefix cfg prompt chain "" bu
  · intro A B C ea eb rc hch hA hB hC
    subst hch
    rw [hrg]
    constructor
    · simp [run_chain, hA, hB, hC]
    · simp [run_chain, hA, hB, hC]
  · intro h
    rw [hrg]
    exact run_chain_all_fail cfg prompt chain "" bu h
  · intro pre m e hch h hm
    subst hch
    rw [hrg]
    exact run_chain_last_error cfg prompt pre m e "" bu h hm

/-- Concrete 3-model backend for the claim C2 witness: models `A` and `B`
raise, every other model answers `hello`. -/
def exBackend : String → String → CallResult :=
  fun m _ =>
    if m = "A" then .raise "errA"
    else if m = "B" then .raise "errB"
    else .ok { text := some "hello", candidates := [] }

/-- Concrete invoker environment for the claim C2 witness. -/
def exCfg : GeminiCfg :=
  { hasKey := true, useGemini := true, backoffSeconds := 45, now := 1000, backend := exBackend }

/-- Witness for claim C2: on `[A, B, C]` with `A`, `B` raising and `C`
answering, the returned text is `C` output and the recorded last error is
from `B`. -/
theorem claim_C2_witness :
    (run_gemini exCfg 0 "p" ["A", "B", "C"]).text = "hello" ∧
      (run_gemini exCfg 0 "p" ["A", "B", "C"]).lastError = "errB" := by
  have h := (claim_C2_model_chain_ordering exCfg 0 "p" ["A", "B", "C"] (by decide)
      (fun m r hh => by
        by_cases h1 : m = "A"
        · simp [exCfg, exBackend, h1] at hh
        · by_cases h2 : m = "B"
          · simp [exCfg, exBackend, h1, h2] at hh
          · simp [exCfg, exBackend, h1, h2] at hh
            rw [← hh]
            decide)).2.2.1 "A" "B" "C" "errA" "errB" { text := some "hello", candidates := [] }
    rfl (by decide) (by decide) (by decide)
  exact ⟨h.1.trans (by decide), h.2⟩

/-- The model loop either keeps the incoming backoff timestamp or arms it
to `now + backoffSeconds`. -/
theorem run_chain_backoff_cases (cfg : GeminiCfg) (prompt : String) :
    ∀ (chain : List String) (le : String) (bu : Nat),
      (run_chain cfg prompt chain le bu).backoffUntil = bu ∨
        (run_chain cfg prompt chain le bu).backoffUntil = cfg.now + cfg.backoffSeconds := by
  intro chain
  induction chain with
  | nil => exact fun le bu => Or.inl rfl
  | cons m rest ih =>
    intro le bu
    cases hb : cfg.backend m prompt with
    | ok r => exact Or.inl (by simp [run_chain, hb])
    | raise e =>
        have hkey : (run_chain cfg prompt (m :: rest) le bu).backoffUntil =
            (run_chain cfg prompt rest e (trip_gemini_backoff cfg e bu)).backoffUntil := by
          simp [run_chain, hb]
        rcases ih e (trip_gemini_backoff cfg e bu) with h2 | h2
        · by_cases hrl : is_rate_limit e = true
          · exact Or.inr (by rw [hkey, h2]; simp [trip_gemini_backoff, hrl])
          · exact Or.inl (by rw [hkey, h2]; simp [trip_gemini_backoff, hrl])
        · exact Or.inr (by rw [hkey]; exact h2)

/-- If any attempted model raised a rate-limit-classified error, the final
backoff timestamp is `now + backoffSeconds`. -/
theorem run_chain_backoff_armed (cfg : GeminiCfg) (prompt : String) :
    ∀ (chain : List String) (le : String) (bu : Nat),
      (∃ m ∈ (run_chain cfg prompt chain le bu).attempts, ∃ e,
          cfg.backend m prompt = .raise e ∧ is_rate_limit e = true) →
      (run_chain cfg prompt chain le bu).backoffUntil = cfg.now + cfg.backoffSeconds := by
  intro chain
  induction chain with
  | nil =>
      intro le bu h
      obtain ⟨m, hm, _⟩ := h
      exact absurd hm (List.not_mem_nil m)
  | cons m rest ih =>
    intro le bu h
    obtain ⟨m2, hm2, e2, hbe, hrl⟩ := h
    cases hb : cfg.backend m prompt with
    | ok r =>
        have hm2m : m2 = m := by
          simp [run_chain, hb] at hm2
          exact hm2
        rw [hm2m, hb] at hbe
        cases hbe
    | raise e =>
        have hm2' : m2 = m ∨ m2 ∈ (run_chain cfg prompt rest e
            (trip_gemini_backoff cfg e bu)).attempts := by
          simp [run_chain, hb] at hm2
          exact hm2
        rw [show (run_chain cfg prompt (m :: rest) le bu).backoffUntil =
          (run_chain cfg prompt rest e (trip_gemini_backoff cfg e bu)).backoffUntil
          from by simp [run_chain, hb]]
        rcases hm2' with hm2' | hm2'
        · rw [hm2', hb] at hbe
          have he2 : e2 = e := (CallResult.raise.inj hbe).symm
          rw [he2] at hrl
          have htr : trip_gemini_backoff cfg e bu = cfg.now + cfg.backoffSeconds := by
            simp [trip_gemini_backoff, hrl]
          rcases run_chain_backoff_cases cfg prompt rest e (trip_gemini_backoff cfg e bu) with
            hc | hc
          · rw [hc, htr]
          · exact hc
        · exact ih e (trip_gemini_backoff cfg e bu) ⟨m2, hm2', e2, hbe, hrl⟩

/-- Claim C3: the default backoff window is 45; an unavailable invoker
(no credential, disabled, or current time inside the window) attempts no
model and returns the disabled sentinel with untouched state; any attempted
model raising a rate-limit-classified error (message containing 429, quota
or rate limit, case-insensitively) arms the backoff to `now + window`; and
once `now` reaches the stored timestamp, a non-empty chain is attempted
again. -/
theorem claim_C3_backoff_gating (cfg : GeminiCfg) (bu : Nat) (prompt : String)
    (chain : List String) :
    GEMINI_BACKOFF_SECONDS_default = 45
    ∧ (gemini_available cfg bu = false →
        run_gemini cfg bu prompt chain =
          { text := "[Gemini disabled]", lastError := "", backoffUntil := bu, attempts := [] })
    ∧ ((cfg.now < bu ∨ cfg.hasKey = false ∨ cfg.useGemini = false) →
        gemini_available cfg bu = false)
    ∧ ((∃ m ∈ (run_gemini cfg bu prompt chain).attempts, ∃ e,
          cfg.backend m prompt = .raise e ∧ is_rate_limit e = true) →
        (run_gemini cfg bu prompt chain).backoffUntil = cfg.now + cfg.backoffSeconds)
    ∧ (cfg.hasKey = true → cfg.useGemini = true → bu ≤ cfg.now → chain ≠ [] →
        (run_gemini cfg bu prompt chain).attempts ≠ []) := by
  refine ⟨rfl, ?_, ?_, ?_, ?_⟩
  · intro h
    simp [run_gemini, h]
  · intro h
    unfold gemini_available
    rcases h with h | h | h
    · simp [Nat.not_le.mpr h]
    · simp [h]
    · simp [h]
  · intro hex
    by_cases hav : gemini_available cfg bu = true
    · simp only [run_gemini, hav, if_true] at hex ⊢
      exact run_chain_backoff_armed cfg prompt chain "" bu hex
    · have hf : gemini_available cfg bu = false := by
        revert hav
        cases gemini_available cfg bu <;> simp
      simp [run_gemini, hf] at hex
  · intro h1 h2 h3 h4
    have hav : gemini_available cfg bu = true := by
      simp [gemini_available, h1, h2, h3]
    cases chain with
    | nil => exact absurd rfl h4
    | cons m rest =>
        simp only [run_gemini, hav, if_true]
        cases hb : cfg.backend m prompt <;> simp [run_chain, hb]

/-- Concrete rate-limited backend for the claim C3 witness. -/
def exBackendRL : String → String → CallResult :=
  fun _ _ => .raise "HTTP 429: quota exceeded"

/-- Concrete invoker environment for the claim C3 witness. -/
def exCfgRL : GeminiCfg :=
  { hasKey := true, useGemini := true, backoffSeconds := 45, now := 1000, backend := exBackendRL }

/-- Witness for claim C3: a 429/quota error arms the backoff to
`now + 45 = 1045`. -/
theorem claim_C3_witness :
    (run_gemini exCfgRL 0 "p" ["A"]).backoffUntil = 1045 := by
  have h := (claim_C3_backoff_gating exCfgRL 0 "p" ["A"]).2.2.2.1
    ⟨"A", by decide, "HTTP 429: quota exceeded", by decide, by decide⟩
  exact h.trans (by decide)

/-- Claim C4 (amended): the Dispatch agent consults the Planner exactly
when its effective summary — the parsed summary on success, the raw
response text on parse failure — is empty or carries a `[Gemini` sentinel
prefix; when it does, both planner fields are kept; otherwise the
effective pair is kept as is, even when parsing failed (the raw text fills
both fields) or the parsed recommendation is empty. -/
theorem claim_C4_dispatch_fallback (cfg : PipeCfg) (bu : Nat) (incident : Incident) :
    (∀ s r, cfg.jparseD (run_gemini cfg.gem bu (dispatch_prompt incident)
          cfg.dispatchChain).text = .parsed s r →
        s ≠ "" → strStarts s "[Gemini" = false →
        (plan_dispatch cfg bu incident).1 = (s, r))
    ∧ (cfg.jparseD (run_gemini cfg.gem bu (dispatch_prompt incident)
          cfg.dispatchChain).text = .failed →
        (run_gemini cfg.gem bu (dispatch_prompt incident) cfg.dispatchChain).text ≠ "" →
        strStarts (run_gemini cfg.gem bu (dispatch_prompt incident)
          cfg.dispatchChain).text "[Gemini" = false →
        (plan_dispatch cfg bu incident).1 =
          ((run_gemini cfg.gem bu (dispatch_prompt incident) cfg.dispatchChain).text,
           (run_gemini cfg.gem bu (dispatch_prompt incident) cfg.dispatchChain).text))
    ∧ (∀ s r, cfg.jparseD (run_gemini cfg.gem bu (dispatch_prompt incident)
          cfg.dispatchChain).text = .parsed s r →
        (s = "" ∨ strStarts s "[Gemini" = true) →
        (plan_dispatch cfg bu incident).1 =
          ((plan_relief_response cfg.jit cfg.statusOf incident 2).summary,
           (plan_relief_response cfg.jit cfg.statusOf incident 2).recommendation))
    ∧ (cfg.jparseD (run_gemini cfg.gem bu (dispatch_prompt incident)
          cfg.dispatchChain).text = .failed →
        ((run_gemini cfg.gem bu (dispatch_prompt incident) cfg.dispatchChain).text = "" ∨
          strStarts (run_gemini cfg.gem bu (dispatch_prompt incident)
            cfg.dispatchChain).text "[Gemini" = true) →
        (plan_dispatch cfg bu incident).1 =
          ((plan_relief_response cfg.jit cfg.statusOf incident 2).summary,
           (plan_relief_response cfg.jit cfg.statusOf incident 2).recommendation)) := by
  refine ⟨?_, ?_, ?_, ?_⟩
  · intro s r hp hs hsent
    simp only [plan_dispatch, hp]
    rw [if_neg]
    intro hc
    rcases hc with hc | hc
    · exact hs hc
    · rw [hsent] at hc
      cases hc
  · intro hp ht hsent
    simp only [plan_dispatch, hp]
    rw [if_neg]
    intro hc
    rcases hc with hc | hc
    · exact ht hc
    · rw [hsent] at hc
      cases hc
  · intro s r hp hc
    simp only [plan_dispatch, hp]
    rw [if_pos]
    rcases hc with hc | hc
    · exact Or.inl hc
    · exact Or.inr (by rw [hc])
  · intro hp hc
    simp only [plan_dispatch, hp]
    rw [if_pos]
    rcases hc with hc | hc
    · exact Or.inl hc
    · exact Or.inr (by rw [hc])

/-- Everything-fails parser pair standing for `json.loads` on non-JSON
prose. -/
def exParseDFail : String → DParse := fun _ => .failed

/-- Resource-side parser that always fails. -/
def exParseRFail : String → RParse := fun _ => .failed

/-- A backend that answers plain prose (`hello`) on every model. -/
def exBackendHello : String → String → CallResult :=
  fun _ _ => .ok { text := some "hello", candidates := [] }

/-- Pipeline configuration whose backend returns unparsable prose. -/
def exCfgHello : PipeCfg :=
  { gem := { hasKey := true, useGemini := true, backoffSeconds := 45, now := 1000,
             backend := exBackendHello },
    jparseD := exParseDFail, jparseR := exParseRFail,
    jit := fun _ => 0, statusOf := allAvailable, decisionTs := "T" }

/-- The standard concrete incident of the repository tests. -/
def exIncidentF : Incident :=
  { itype := some "Fire", location := some "Sector 7", urgency := some "CRITICAL" }

/-- Claim C4 counterexample: the backend answers the non-JSON text
`hello`, structured parsing fails, yet the Dispatch plan keeps `hello` in
both fields — the Planner result is not the authoritative one. -/
theorem claim_C4_counterexample :
    exCfgHello.jparseD ((run_gemini exCfgHello.gem 0 (dispatch_prompt exIncidentF)
        exCfgHello.dispatchChain).text) = .failed
    ∧ (plan_dispatch exCfgHello 0 exIncidentF).1 = ("hello", "hello")
    ∧ (plan_relief_response exCfgHello.jit exCfgHello.statusOf exIncidentF 2).summary ≠ "hello"
    ∧ (plan_dispatch exCfgHello 0 exIncidentF).1 ≠
        ((plan_relief_response exCfgHello.jit exCfgHello.statusOf exIncidentF 2).summary,
         (plan_relief_response exCfgHello.jit exCfgHello.statusOf exIncidentF 2).recommendation) :=
  ⟨rfl, by decide, by decide, by decide⟩

/-- Witness for claim C4 at the concrete prose-answering configuration:
parse failure with non-sentinel text keeps the raw text pair. -/
theorem claim_C4_witness :
    (plan_dispatch exCfgHello 0 exIncidentF).1 =
      ((run_gemini exCfgHello.gem 0 (dispatch_prompt exIncidentF) exCfgHello.dispatchChain).text,
       (run_gemini exCfgHello.gem 0 (dispatch_prompt exIncidentF) exCfgHello.dispatchChain).text) :=
  (claim_C4_dispatch_fallback exCfgHello 0 exIncidentF).2.1 rfl (by decide) (by decide)

/-- Python slicing keeps at most `n` characters. -/
theorem strTake_length (s : String) (n : Nat) : (strTake s n).length = min n s.length :=
  List.length_take n s.data

/-- `format_display_alert` never exceeds 60 characters. -/
theorem format_display_alert_le60 (s r : String) (i : Option Incident) (u : Option String) :
    (format_display_alert s r i u).length ≤ 60 := by
  simp only [format_display_alert]
  by_cases h :
      (pyStrip (pyStrip (pyOr u (optGetD (i.getD emptyIncident).urgency "CRITICAL") ++ " " ++
        optGetD (i.getD emptyIncident).itype "" ++ " " ++
        optGetD (i.getD emptyIncident).location "") ++ ": " ++
        if r ≠ "" then r else s)).length > 60
  · rw [if_pos h, String.length_append, strTake_length]
    have h3 : ("..." : String).length = 3 := rfl
    omega
  · rw [if_neg h]
    omega

/-- Membership in the characters of a left append component. -/
theorem mem_data_append_left {c : Char} {s : String} (t : String) (h : c ∈ s.data) :
    c ∈ (s ++ t).data := by
  rw [String.data_append]
  exact List.mem_append.mpr (Or.inl h)

/-- Membership in the characters of a right append component. -/
theorem mem_data_append_right {c : Char} (s : String) {t : String} (h : c ∈ t.data) :
    c ∈ (s ++ t).data := by
  rw [String.data_append]
  exact List.mem_append.mpr (Or.inr h)

/-- The incident brief is never empty: it always contains the literal
` at ` fragment, which survives stripping. -/
theorem generate_incident_brief_ne (i : Incident) : generate_incident_brief i ≠ "" := by
  simp only [generate_incident_brief]
  apply pyStrip_ne_empty
  refine ⟨'a', ?_, by decide⟩
  exact mem_data_append_left _ (mem_data_append_left _ (mem_data_append_left _
    (mem_data_append_left _ (mem_data_append_left _ (mem_data_append_right _ (by decide))))))

/-- The planner summary is never empty. -/
theorem plan_summary_ne (jit : String → Int) (st : String → String) (i : Incident) (l : Nat) :
    (plan_relief_response jit st i l).summary ≠ "" := by
  simp only [plan_relief_response]
  cases h : recommend_units_for_incident jit st i l with
  | nil => exact generate_incident_brief_ne i
  | cons top rest => exact generate_incident_brief_ne i

/-- The planner recommendation is never empty. -/
theorem plan_recommendation_ne (jit : String → Int) (st : String → String) (i : Incident)
    (l : Nat) : (plan_relief_response jit st i l).recommendation ≠ "" := by
  simp only [plan_relief_response]
  cases h : recommend_units_for_incident jit st i l with
  | nil =>
      exact (by decide :
        ("Hold and escalate to manual supervisor; no units free." : String) ≠ "")
  | cons top rest =>
      apply ne_empty_of_length_pos
      show 0 < ("Dispatch " ++ top.unit.id ++ " to " ++ optGetD i.location "the scene" ++ ".").length
      rw [String.length_append, String.length_append, String.length_append,
        String.length_append]
      have h9 : ("Dispatch " : String).length = 9 := rfl
      omega

/-- The planner resource summary is never empty. -/
theorem plan_resource_summary_ne (jit : String → Int) (st : String → String) (i : Incident)
    (l : Nat) : (plan_relief_response jit st i l).resource_summary ≠ "" := by
  simp only [plan_relief_response]
  cases h : recommend_units_for_incident jit st i l with
  | nil =>
      exact (by decide : ("All units busy; advise manual review." : String) ≠ "")
  | cons top rest =>
      apply ne_empty_of_length_pos
      rw [String.length_append]
      have h21 : ("Primary assignments: " : String).length = 21 := rfl
      omega

/-- An unavailable invoker returns the disabled sentinel and touches
nothing. -/
theorem run_gemini_disabled (cfg : GeminiCfg) (bu : Nat) (p : String) (chain : List String)
    (h : gemini_available cfg bu = false) :
    run_gemini cfg bu p chain =
      { text := "[Gemini disabled]", lastError := "", backoffUntil := bu, attempts := [] } := by
  simp [run_gemini, h]

/-- The error sentinel always starts with the `[Gemini` marker. -/
theorem strStarts_gemini_error (x y : String) :
    strStarts ("[Gemini error: " ++ x ++ y) "[Gemini" = true := by
  unfold strStarts
  rw [String.data_append, String.data_append,
    show ("[Gemini error: " : String).data = ("[Gemini" : String).data ++
      (" error: " : String).data from by decide,
    List.append_assoc, List.append_assoc]
  exact isPrefixOf_append _ _

/-- The disabled sentinel starts with the `[Gemini` marker. -/
theorem strStarts_gemini_disabled : strStarts "[Gemini disabled]" "[Gemini" = true := by decide

/-- When every backend call raises, the invoker text always carries the
`[Gemini` sentinel, whatever the backoff state. -/
theorem run_gemini_allraise_sentinel (cfg : GeminiCfg) (p : String)
    (hraise : ∀ m, ∃ e, cfg.backend m p = .raise e) (bu : Nat) (chain : List String) :
    strStarts (run_gemini cfg bu p chain).text "[Gemini" = true := by
  by_cases hav : gemini_available cfg bu = true
  · simp only [run_gemini, hav, if_true]
    have hloop : ∀ (ch : List String) (le : String) (bu2 : Nat),
        strStarts (run_chain cfg p ch le bu2).text "[Gemini" = true := by
      intro ch
      induction ch with
      | nil =>
          intro le bu2
          exact strStarts_gemini_error _ _
      | cons m rest ih =>
          intro le bu2
          obtain ⟨e, he⟩ := hraise m
          simp only [run_chain, he]
          exact ih e (trip_gemini_backoff cfg e bu2)
    exact hloop chain "" bu
  · have hf : gemini_available cfg bu = false := by
      revert hav
      cases gemini_available cfg bu <;> simp
    rw [run_gemini_disabled cfg bu p chain hf]
    exact strStarts_gemini_disabled

/-- With a failing dispatch parser, the plan fields are never empty:
either the planner pair or the non-empty raw text is kept. -/
theorem plan_dispatch_nonempty (cfg : PipeCfg) (bu : Nat) (inc : Incident)
    (hparse : cfg.jparseD (run_gemini cfg.gem bu (dispatch_prompt inc)
      cfg.dispatchChain).text = .failed) :
    (plan_dispatch cfg bu inc).1.1 ≠ "" ∧ (plan_dispatch cfg bu inc).1.2 ≠ "" := by
  simp only [plan_dispatch, hparse]
  by_cases hc : (run_gemini cfg.gem bu (dispatch_prompt inc) cfg.dispatchChain).text = "" ∨
      strStarts (run_gemini cfg.gem bu (dispatch_prompt inc) cfg.dispatchChain).text
        "[Gemini" = true
  · rw [if_pos hc]
    exact ⟨plan_summary_ne cfg.jit cfg.statusOf inc 2,
      plan_recommendation_ne cfg.jit cfg.statusOf inc 2⟩
  · rw [if_neg hc]
    push_neg at hc
    exact ⟨hc.1, hc.1⟩

/-- With a failing resource parser, the resources and the resource
summary come from the planner. -/
theorem resource_result_failed (cfg : PipeCfg) (bu : Nat) (inc : Incident)
    (hparse : cfg.jparseR (run_gemini cfg.gem bu (resource_prompt inc)
      cfg.resourceChain).text = .failed) :
    (resource_result cfg bu inc).1 =
      (ResVal.list (plan_relief_response cfg.jit cfg.statusOf inc 2).resources,
       (plan_relief_response cfg.jit cfg.statusOf inc 2).resource_summary) := by
  simp only [resource_result, hparse]
  have hcond : resval_falsy (ResVal.list []) = true ∨ resval_gemini_str (ResVal.list []) = true :=
    Or.inl rfl
  rw [if_pos hcond]

/-- A sentinel-carrying summary response falls back to the deterministic
display formatter. -/
theorem summarize_sentinel (cfg : PipeCfg) (bu : Nat) (s r u : String) (inc : Incident)
    (hsent : strStarts (run_gemini cfg.gem bu (summary_prompt s r u)
      cfg.summaryChain).text "[Gemini" = true) :
    (summarize_for_display cfg bu s r u inc).1 =
      format_display_alert s r (some inc) (some u) := by
  simp only [summarize_for_display]
  rw [if_pos hsent]

/-- A non-sentinel summary response is returned stripped. -/
theorem summarize_text (cfg : PipeCfg) (bu : Nat) (s r u : String) (inc : Incident)
    (hsent : strStarts (run_gemini cfg.gem bu (summary_prompt s r u)
      cfg.summaryChain).text "[Gemini" = false) :
    (summarize_for_display cfg bu s r u inc).1 =
      pyStrip (run_gemini cfg.gem bu (summary_prompt s r u) cfg.summaryChain).text := by
  simp only [summarize_for_display]
  rw [if_neg (by rw [hsent]; exact Bool.false_ne_true)]

/-- An unavailable invoker leaves the dispatch plan backoff untouched. -/
theorem plan_dispatch_backoff_disabled (cfg : PipeCfg) (bu : Nat) (inc : Incident)
    (h : gemini_available cfg.gem bu = false) : (plan_dispatch cfg bu inc).2 = bu := by
  simp only [plan_dispatch]
  rw [run_gemini_disabled cfg.gem bu _ _ h]

/-- An unavailable invoker leaves the resource-step backoff untouched. -/
theorem resource_result_backoff_disabled (cfg : PipeCfg) (bu : Nat) (inc : Incident)
    (h : gemini_available cfg.gem bu = false) : (resource_result cfg bu inc).2 = bu := by
  simp only [resource_result]
  rw [run_gemini_disabled cfg.gem bu _ _ h]

/-- The Dispatch → Resource → Summary content fields, computed. -/
theorem pipeline3_fields (cfg : PipeCfg) (env : MessageEnvelope) (st : PipeState)
    (inc : Incident) (hinc : env.content.incident = some inc) :
    (pipeline3 cfg env st).1.content.summary =
      some (plan_dispatch cfg st.backoffUntil inc).1.1
    ∧ (pipeline3 cfg env st).1.content.recommendation =
      some (plan_dispatch cfg st.backoffUntil inc).1.2
    ∧ (pipeline3 cfg env st).1.content.resources =
      some (resource_result cfg (plan_dispatch cfg st.backoffUntil inc).2 inc).1.1
    ∧ (pipeline3 cfg env st).1.content.resource_summary =
      some (resource_result cfg (plan_dispatch cfg st.backoffUntil inc).2 inc).1.2
    ∧ (pipeline3 cfg env st).1.content.display_summary =
      some (summarize_for_display cfg
        (resource_result cfg (plan_dispatch cfg st.backoffUntil inc).2 inc).2
        (plan_dispatch cfg st.backoffUntil inc).1.1
        (plan_dispatch cfg st.backoffUntil inc).1.2
        (optGetD env.content.urgency "CRITICAL") inc).1 := by
  refine ⟨?_, ?_, ?_, ?_, ?_⟩ <;>
    simp [pipeline3, a2a_orchestrate, dispatch_agent, resource_agent, summary_agent,
      dispatch_handle_envelope, resource_handle_envelope, summary_handle_envelope,
      hinc, optGetD]

/-- Claim C1 (amended): over an envelope seeded with an incident, running
Dispatch then Resource then Summary yields a non-empty summary, a
non-empty recommendation, a resources list (possibly empty), and a
non-empty resource_summary under every backend failure mode — disabled,
every model raising, or malformed (unparsable) text — with no exception
escaping (all agent steps are total functions); `display_summary` is
present in every mode and is at most 60 characters in the disabled and
all-raising modes, while in the malformed-text mode it equals the trimmed
backend text, which may exceed 60 characters. -/
theorem claim_C1_total_fallback (cfg : PipeCfg) (env : MessageEnvelope) (st : PipeState)
    (inc : Incident) (hinc : env.content.incident = some inc)
    (hsentD : ∀ s, strStarts s "[Gemini" = true → cfg.jparseD s = .failed)
    (hsentR : ∀ s, strStarts s "[Gemini" = true → cfg.jparseR s = .failed)
    (hmode : gemini_available cfg.gem st.backoffUntil = false
      ∨ (∀ m p, ∃ e, cfg.gem.backend m p = .raise e)
      ∨ ((∀ s, cfg.jparseD s = .failed) ∧ (∀ s, cfg.jparseR s = .failed))) :
    (∃ s, (pipeline3 cfg env st).1.content.summary = some s ∧ s ≠ "")
    ∧ (∃ r, (pipeline3 cfg env st).1.content.recommendation = some r ∧ r ≠ "")
    ∧ (∃ l, (pipeline3 cfg env st).1.content.resources = some (ResVal.list l))
    ∧ (∃ rs, (pipeline3 cfg env st).1.content.resource_summary = some rs ∧ rs ≠ "")
    ∧ (∃ d, (pipeline3 cfg env st).1.content.display_summary = some d ∧
        ((gemini_available cfg.gem st.backoffUntil = false
          ∨ (∀ m p, ∃ e, cfg.gem.backend m p = .raise e)) → d.length ≤ 60)) := by
  obtain ⟨h1sum, h1rec, h1res, h1rsum, h1disp⟩ := pipeline3_fields cfg env st inc hinc
  have hDtext : cfg.jparseD (run_gemini cfg.gem st.backoffUntil (dispatch_prompt inc)
      cfg.dispatchChain).text = .failed := by
    rcases hmode with hA | hB | hC
    · apply hsentD
      rw [run_gemini_disabled cfg.gem st.backoffUntil _ _ hA]
      exact strStarts_gemini_disabled
    · exact hsentD _ (run_gemini_allraise_sentinel cfg.gem _ (fun m => hB m _) _ _)
    · exact hC.1 _
  have hRtext : cfg.jparseR (run_gemini cfg.gem (plan_dispatch cfg st.backoffUntil inc).2
      (resource_prompt inc) cfg.resourceChain).text = .failed := by
    rcases hmode with hA | hB | hC
    · apply hsentR
      rw [plan_dispatch_backoff_disabled cfg st.backoffUntil inc hA,
        run_gemini_disabled cfg.gem st.backoffUntil _ _ hA]
      exact strStarts_gemini_disabled
    · exact hsentR _ (run_gemini_allraise_sentinel cfg.gem _ (fun m => hB m _) _ _)
    · exact hC.2 _
  have hplan := plan_dispatch_nonempty cfg st.backoffUntil inc hDtext
  have hres := resource_result_failed cfg (plan_dispatch cfg st.backoffUntil inc).2 inc hRtext
  refine ⟨⟨_, h1sum, hplan.1⟩, ⟨_, h1rec, hplan.2⟩, ?_, ?_, ?_⟩
  · refine ⟨(plan_relief_response cfg.jit cfg.statusOf inc 2).resources, ?_⟩
    rw [h1res, show (resource_result cfg (plan_dispatch cfg st.backoffUntil inc).2 inc).1.1 =
      ResVal.list (plan_relief_response cfg.jit cfg.statusOf inc 2).resources from
      by rw [hres]]
  · refine ⟨(plan_relief_response cfg.jit cfg.statusOf inc 2).resource_summary, ?_, ?_⟩
    · rw [h1rsum, show (resource_result cfg (plan_dispatch cfg st.backoffUntil inc).2 inc).1.2 =
        (plan_relief_response cfg.jit cfg.statusOf inc 2).resource_summary from by rw [hres]]
    · exact plan_resource_summary_ne cfg.jit cfg.statusOf inc 2
  · refine ⟨_, h1disp, ?_⟩
    intro hab
    have hsent : strStarts (run_gemini cfg.gem
        (resource_result cfg (plan_dispatch cfg st.backoffUntil inc).2 inc).2
        (summary_prompt (plan_dispatch cfg st.backoffUntil inc).1.1
          (plan_dispatch cfg st.backoffUntil inc).1.2
          (optGetD env.content.urgency "CRITICAL"))
        cfg.summaryChain).text "[Gemini" = true := by
      rcases hab with hA | hB
      · rw [show (resource_result cfg (plan_dispatch cfg st.backoffUntil inc).2 inc).2 =
            st.backoffUntil from by
          rw [plan_dispatch_backoff_disabled cfg st.backoffUntil inc hA]
          exact resource_result_backoff_disabled cfg st.backoffUntil inc hA]
        rw [run_gemini_disabled cfg.gem st.backoffUntil _ _ hA]
        exact strStarts_gemini_disabled
      · exact run_gemini_allraise_sentinel cfg.gem _ (fun m => hB m _) _ _
    rw [summarize_sentinel cfg _ _ _ _ inc hsent]
    exact format_display_alert_le60 _ _ _ _

/-- Seventy `x` characters: a backend answer longer than the display
budget. -/
def longText70 : String :=
  "xxxxxxxxxxxxxxxxxxxxxxxxxxxxxxxxxxxxxxxxxxxxxxxxxxxxxxxxxxxxxxxxxxxxxx"

/-- Pipeline configuration whose backend always answers the 70-character
prose (unparsable as structured output). -/
def exCfgLong : PipeCfg :=
  { gem := { hasKey := true, useGemini := true, backoffSeconds := 45, now := 1000,
             backend := fun _ _ => .ok { text := some longText70, candidates := [] } },
    jparseD := exParseDFail, jparseR := exParseRFail,
    jit := fun _ => 0, statusOf := allAvailable, decisionTs := "T" }

/-- The seeded envelope: content holding only the incident. -/
def envSeed : MessageEnvelope := { content := { incident := some exIncidentF } }

/-- Claim C1 counterexample: in the malformed-text failure mode the
Summary agent returns the raw 70-character backend text as
`display_summary`, violating the claimed 60-character bound. -/
theorem claim_C1_counterexample :
    (pipeline3 exCfgLong envSeed {}).1.content.display_summary = some longText70
    ∧ longText70.length = 70
    ∧ ¬ ((70 : Nat) ≤ 60) :=
  ⟨by decide, by decide, by decide⟩

/-- Pipeline configuration with no credential configured: the disabled
failure mode. -/
def exCfgDisabled : PipeCfg :=
  { gem := { hasKey := false, useGemini := true, backoffSeconds := 45, now := 1000,
             backend := fun _ _ => .raise "boom" },
    jparseD := exParseDFail, jparseR := exParseRFail,
    jit := fun _ => 0, statusOf := allAvailable, decisionTs := "T" }

/-- Witness for claim C1 in the disabled mode at a concrete incident. -/
theorem claim_C1_witness :
    (∃ s, (pipeline3 exCfgDisabled envSeed {}).1.content.summary = some s ∧ s ≠ "")
    ∧ (∃ d, (pipeline3 exCfgDisabled envSeed {}).1.content.display_summary = some d ∧
        ((gemini_available exCfgDisabled.gem ({} : PipeState).backoffUntil = false
          ∨ (∀ m p, ∃ e, exCfgDisabled.gem.backend m p = .raise e)) → d.length ≤ 60)) :=
  ⟨(claim_C1_total_fallback exCfgDisabled envSeed {} exIncidentF rfl
      (fun s _ => rfl) (fun s _ => rfl) (Or.inl (by decide))).1,
   (claim_C1_total_fallback exCfgDisabled envSeed {} exIncidentF rfl
      (fun s _ => rfl) (fun s _ => rfl) (Or.inl (by decide))).2.2.2.2⟩
